import Mathlib

/-!
Verification of the BankSight dashboard (app/streamlit_app.py) against its
design specification.  The store-facing logic is embedded shallowly:

* schema introspection and ordered-candidate column resolution
  (`table_has_column`, the Q9 if-chains of `page_analytics`);
* the CRUD page's single-row update/delete SQL assembly (`page_crud`);
* the ledger page (`page_credit_sim`): check / deposit / withdraw over an
  accounts table plus a best-effort audit insert into `transactions`;
* the connection open/close discipline of every store-touching helper.

Money amounts are modelled as exact rationals (`ℚ`); the environment —
current timestamp, generated transaction id, and whether a SQL call raises —
is passed explicitly.
-/

set_option maxHeartbeats 1000000

/-- A database schema: each table name paired with its declared column list,
as `PRAGMA table_info` would report it. -/
abbrev Schema := List (String × List String)

/-- `PRAGMA table_info(table)` read: the column list of `table`, and the empty
list when the table is absent (the pragma returns no rows). -/
def columns_of (schema : Schema) (table : String) : List String :=
  match schema.find? (fun p => p.1 == table) with
  | some p => p.2
  | none => []

/-- `table_has_column(table, col)` from the source: fetch the pragma rows and
test membership of `col` among the column names. -/
def table_has_column (schema : Schema) (table col : String) : Bool :=
  (columns_of schema table).contains col

/-- Ordered-candidate column resolution: the first candidate present in the
table's column set, or `none`.  This is the generic form of the if-chains in
`page_analytics` (e.g. Q9 lines 507–509) and of the Q4 comprehension. -/
def resolve (schema : Schema) (table : String) (candidates : List String) : Option String :=
  candidates.find? (fun c => table_has_column schema table c)

/-- Q9's loan-amount chain:
`"Loan_Amount" if table_has_column("loans","Loan_Amount") else ("Amount" if ... else None)`. -/
def q9_loan_amount_col (schema : Schema) : Option String :=
  if table_has_column schema "loans" "Loan_Amount" then some "Loan_Amount"
  else if table_has_column schema "loans" "Amount" then some "Amount"
  else none

/-- Q9's interest-rate chain. -/
def q9_interest_col (schema : Schema) : Option String :=
  if table_has_column schema "loans" "Interest_Rate" then some "Interest_Rate"
  else if table_has_column schema "loans" "Interest" then some "Interest"
  else none

/-- Q9's loan-type chain. -/
def q9_loan_type_col (schema : Schema) : Option String :=
  if table_has_column schema "loans" "Loan_Type" then some "Loan_Type"
  else if table_has_column schema "loans" "Type" then some "Type"
  else none

/-- The fixed table list offered by the CRUD page's selectbox. -/
def tables_supported : List String :=
  ["customers", "accounts", "transactions", "loans", "branches", "support_tickets"]

/-- `get_key_col`: the hard-coded key-column map of the CRUD page. -/
def get_key_col (table : String) : Option String :=
  if table == "customers" then some "customer_id"
  else if table == "accounts" then some "customer_id"
  else if table == "transactions" then some "txn_id"
  else if table == "loans" then some "Loan_ID"
  else if table == "branches" then some "Branch_ID"
  else if table == "support_tickets" then some "Ticket_ID"
  else none

/-- An emitted SQL statement: its text together with the bound parameters
passed separately to the driver. -/
structure SqlStmt where
  sql : String
  params : List String
deriving DecidableEq

/-- Outcome of the CRUD page's update/delete assembly: either no key column is
configured for the table, or a statement is built and forwarded. -/
inductive CrudOutcome
  | noKeyColumn
  | stmt (s : SqlStmt)
deriving DecidableEq

/-- The Update branch of `page_crud`:
`sql = f"UPDATE {table} SET {col_to_update} = ? WHERE {key_col} = ?"` executed
with `(new_val, key_val)`.  `col_to_update` comes verbatim from a free-form
text input; no schema check is performed on it. -/
def crud_update (table key_val col_to_update new_val : String) : CrudOutcome :=
  match get_key_col table with
  | none => .noKeyColumn
  | some key_col =>
      .stmt ⟨"UPDATE " ++ table ++ " SET " ++ col_to_update ++ " = ? WHERE " ++ key_col ++ " = ?",
             [new_val, key_val]⟩

/-- The Delete branch of `page_crud`:
`f"DELETE FROM {table} WHERE {key_col} = ?"` executed with `(key_val,)`. -/
def crud_delete (table key_val : String) : CrudOutcome :=
  match get_key_col table with
  | none => .noKeyColumn
  | some key_col =>
      .stmt ⟨"DELETE FROM " ++ table ++ " WHERE " ++ key_col ++ " = ?", [key_val]⟩

/-- A small concrete schema used for concrete evaluations. -/
def demoSchema : Schema :=
  [("customers", ["customer_id", "name", "city"]),
   ("accounts", ["customer_id", "account_balance", "last_updated"]),
   ("loans", ["Loan_ID", "Customer_ID", "Amount", "Interest", "Type"])]

/-- A row of the `accounts` table; `account_balance` is nullable. -/
structure Account where
  customer_id : String
  account_balance : Option ℚ
  last_updated : String
deriving DecidableEq

/-- A row of the `transactions` table. -/
structure Txn where
  txn_id : String
  customer_id : String
  txn_type : String
  amount : ℚ
  txn_time : String
  status : String
deriving DecidableEq

/-- The part of the store the ledger page touches. -/
structure Store where
  accounts : List Account
  transactions : List Txn
deriving DecidableEq

/-- The ledger page's action radio button. -/
inductive LedgerAction
  | check
  | deposit
  | withdraw
deriving DecidableEq

/-- The user-visible outcome of one ledger invocation. -/
inductive LedgerResult
  | accountNotFound
  | balanceShown (b : ℚ)
  | insufficientFunds
  | deposited (newBalance : ℚ)
  | withdrawn (newBalance : ℚ)
deriving DecidableEq

/-- `SELECT account_balance FROM accounts WHERE customer_id = ?` + `fetchone`:
the first matching row, if any. -/
def findAccount (s : Store) (cid : String) : Option Account :=
  s.accounts.find? (fun a => a.customer_id == cid)

/-- `UPDATE accounts SET account_balance = ?, last_updated = ? WHERE customer_id = ?`. -/
def setBalance (s : Store) (cid : String) (nb : ℚ) (now : String) : Store :=
  { s with accounts := s.accounts.map (fun a =>
      if a.customer_id == cid
      then { a with account_balance := some nb, last_updated := now }
      else a) }

/-- `INSERT INTO transactions (txn_id, customer_id, txn_type, amount, txn_time,
status) VALUES (?, ?, ?, ?, ?, ?)`. -/
def appendTxn (s : Store) (tid cid ty : String) (amt : ℚ) (time st : String) : Store :=
  { s with transactions := s.transactions ++ [⟨tid, cid, ty, amt, time, st⟩] }

/-- The minimum enforced by the ledger page's amount widget
(`st.number_input("Enter Amount (₹)", min_value=0.0, ...)`): no amount below
this value can be submitted. -/
def amount_input_min : ℚ := 0

/-- The ledger page `page_credit_sim`, one Submit click.  `now` is the current
timestamp string, `tid` the freshly generated transaction id, and `auditOk`
tells whether the audit insert into `transactions` succeeds (its failure is
swallowed by `except Exception: pass`).  Returns the user-visible result and
the committed store. -/
def page_credit_sim (now tid : String) (auditOk : Bool)
    (customer_id : String) (amount : ℚ) (action : LedgerAction) (s : Store) :
    LedgerResult × Store :=
  match findAccount s customer_id with
  | none => (.accountNotFound, s)
  | some row =>
      let balance := row.account_balance.getD 0
      match action with
      | .check => (.balanceShown balance, s)
      | .deposit =>
          let new_balance := balance + amount
          let s1 := setBalance s customer_id new_balance now
          let s2 := if auditOk then appendTxn s1 tid customer_id "deposit" amount now "success"
                    else s1
          (.deposited new_balance, s2)
      | .withdraw =>
          if balance < amount then (.insufficientFunds, s)
          else
            let new_balance := balance - amount
            let s1 := setBalance s customer_id new_balance now
            let s2 := if auditOk then appendTxn s1 tid customer_id "withdraw" amount now "success"
                      else s1
            (.withdrawn new_balance, s2)

/-- Concrete store: one account with balance 100. -/
def store100 : Store := ⟨[⟨"C0001", some 100, "t0"⟩], []⟩

/-- Concrete store: one account with balance 500. -/
def store500 : Store := ⟨[⟨"C0001", some 500, "t0"⟩], []⟩

/-- Concrete store: one account whose stored balance is NULL. -/
def storeNull : Store := ⟨[⟨"C0001", none, "t0"⟩], []⟩

/-- Concrete store: one account with the (bulk-loaded) negative balance −10. -/
def storeNeg : Store := ⟨[⟨"C0001", some (-10), "t0"⟩], []⟩

/-- Connection balance of `get_table`: `connect`, `pd.read_sql`, `conn.close()`
with no try/finally.  `sqlOk` says whether the SQL call returns normally; the
result is the number of open connections afterwards, starting from `o`. -/
def get_table_conns (sqlOk : Bool) (o : Nat) : Nat :=
  let o1 := o + 1
  if sqlOk then o1 - 1 else o1

/-- Connection balance of `run_sql`: the read is wrapped in try/finally, so the
connection is closed on both paths. -/
def run_sql_conns (sqlOk : Bool) (o : Nat) : Nat :=
  let o1 := o + 1
  if sqlOk then o1 - 1 else o1 - 1

/-- Connection balance of `exec_sql`: `connect`, `execute`, `commit`, `close`
with no try/finally. -/
def exec_sql_conns (sqlOk : Bool) (o : Nat) : Nat :=
  let o1 := o + 1
  if sqlOk then o1 - 1 else o1

/-- Connection balance of `table_has_column`: try/except/finally — closed on
both paths. -/
def table_has_column_conns (sqlOk : Bool) (o : Nat) : Nat :=
  let o1 := o + 1
  if sqlOk then o1 - 1 else o1 - 1

/-- Connection balance of `get_table_columns`: try/finally — closed on both
paths. -/
def get_table_columns_conns (sqlOk : Bool) (o : Nat) : Nat :=
  let o1 := o + 1
  if sqlOk then o1 - 1 else o1 - 1

/-- The CRUD page's operation radio button. -/
inductive CrudOp
  | view
  | add
  | update
  | delete
deriving DecidableEq

/-- Connection balance of `page_crud` (the page's own connection, opened at
the top and closed at the end of the page body): the View branch runs
`pd.read_sql` outside any try, so an error skips the final `conn.close()`;
the Add branch first calls `get_table_columns(table)` outside any page-level
try — that helper's finally closes its own connection, but the raise
propagates and skips the page's close — and only wraps its INSERT in
try/except; Update/Delete wrap their only SQL call in try/except, so the
page's close is reached on both paths.  `pragmaOk` says whether the Add
branch's `get_table_columns` pragma call returns normally, `sqlOk` whether
the branch's main (guarded, for Add/Update/Delete) SQL call does. -/
def page_crud_conns (op : CrudOp) (pragmaOk sqlOk : Bool) (o : Nat) : Nat :=
  let o1 := o + 1
  match op with
  | .view => if sqlOk then o1 - 1 else o1
  | .add => if pragmaOk then o1 - 1 else o1
  | _ => o1 - 1

/-- Connection balance of `page_credit_sim`: the whole body is inside
try/except and `conn.close()` follows, so the connection is closed on both
paths. -/
def page_credit_sim_conns (sqlOk : Bool) (o : Nat) : Nat :=
  let o1 := o + 1
  if sqlOk then o1 - 1 else o1 - 1

-- Rationals in this development are only ever built from concrete literals and
-- the ledger's +/−, so their arithmetic is made reducible again to let
-- concrete scenarios be settled by kernel evaluation.
set_option allowUnsafeReducibility true in
attribute [semireducible] Rat.add Rat.sub Rat.neg Rat.blt Rat.ofScientific

/-- `List.find?` returns `some c` exactly when the list splits as
`pre ++ c :: post` with every element of `pre` failing the predicate and `c`
satisfying it — i.e. the first match wins. -/
theorem find?_first_iff {α : Type} (p : α → Bool) (l : List α) (c : α) :
    l.find? p = some c ↔
      ∃ pre post, l = pre ++ c :: post ∧ p c = true ∧ ∀ d ∈ pre, p d = false := by
  induction l with
  | nil => simp
  | cons a t ih =>
    by_cases h : p a
    · rw [List.find?_cons_of_pos _ h]
      constructor
      · intro hc
        obtain rfl : a = c := by simpa using hc
        exact ⟨[], t, rfl, h, by simp⟩
      · rintro ⟨pre, post, heq, hpc, hpre⟩
        cases pre with
        | nil =>
          obtain ⟨rfl, -⟩ : a = c ∧ t = post := by simpa using heq
          rfl
        | cons x xs =>
          obtain ⟨rfl, -⟩ : a = x ∧ t = xs ++ c :: post := by simpa using heq
          exact absurd h (by simp [hpre a (by simp)])
    · rw [List.find?_cons_of_neg _ h, ih]
      constructor
      · rintro ⟨pre, post, heq, hpc, hpre⟩
        refine ⟨a :: pre, post, by simp [heq], hpc, ?_⟩
        intro d hd
        rcases List.mem_cons.mp hd with rfl | hd'
        · simpa using h
        · exact hpre d hd'
      · rintro ⟨pre, post, heq, hpc, hpre⟩
        cases pre with
        | nil =>
          obtain ⟨rfl, -⟩ : a = c ∧ t = post := by simpa using heq
          exact absurd hpc (by simpa using h)
        | cons x xs =>
          obtain ⟨rfl, ht⟩ : a = x ∧ t = xs ++ c :: post := by simpa using heq
          exact ⟨xs, post, ht, hpc, fun d hd => hpre d (by simp [hd])⟩

/-- C5: for every table `T` and ordered candidate list `C`, `resolve` returns
the first element of `C` present in `columns_of T` and `none` when no element
is present; the Q9 if-chains of `page_analytics` are instances of this
resolution on their two-element candidate lists. -/
theorem C5_resolve_first_present (schema : Schema) (table : String) (cands : List String) :
    (resolve schema table cands = none ↔ ∀ c ∈ cands, c ∉ columns_of schema table) ∧
    (∀ c, resolve schema table cands = some c ↔
      ∃ pre post, cands = pre ++ c :: post ∧ c ∈ columns_of schema table ∧
        ∀ d ∈ pre, d ∉ columns_of schema table) ∧
    q9_loan_amount_col schema = resolve schema "loans" ["Loan_Amount", "Amount"] ∧
    q9_interest_col schema = resolve schema "loans" ["Interest_Rate", "Interest"] ∧
    q9_loan_type_col schema = resolve schema "loans" ["Loan_Type", "Type"] := by
  refine ⟨?_, ?_, ?_, ?_, ?_⟩
  · rw [resolve, List.find?_eq_none]
    simp [table_has_column]
  · intro c
    rw [resolve, find?_first_iff]
    simp [table_has_column]
  · by_cases h1 : table_has_column schema "loans" "Loan_Amount" <;>
      by_cases h2 : table_has_column schema "loans" "Amount" <;>
      simp [q9_loan_amount_col, resolve, List.find?, h1, h2]
  · by_cases h1 : table_has_column schema "loans" "Interest_Rate" <;>
      by_cases h2 : table_has_column schema "loans" "Interest" <;>
      simp [q9_interest_col, resolve, List.find?, h1, h2]
  · by_cases h1 : table_has_column schema "loans" "Loan_Type" <;>
      by_cases h2 : table_has_column schema "loans" "Type" <;>
      simp [q9_loan_type_col, resolve, List.find?, h1, h2]

/-- C2 counterexample: the column name `"hacked"` is not a column of
`customers` in the live schema, yet the Update branch forwards it verbatim
inside the identifier position of the emitted SQL text instead of rejecting
the request — no schema validation happens between the text input and the
string interpolation. -/
theorem C2_counterexample :
    table_has_column demoSchema "customers" "hacked" = false ∧
    crud_update "customers" "C0001" "hacked" "x" =
      .stmt ⟨"UPDATE customers SET hacked = ? WHERE customer_id = ?", ["x", "C0001"]⟩ := by
  decide

/-- C2 (amended): the table and key-column identifiers of single-row
update/delete come from the fixed selectbox list and the hard-coded
`get_key_col` map, and the caller's values travel only in the bound-parameter
list; but the Update branch splices the free-form `col_to_update` string into
the identifier position of the SQL text without any validation against the
schema. -/
theorem C2_crud_identifier_handling (table key_val col_to_update new_val key_col : String)
    (h : get_key_col table = some key_col) :
    crud_update table key_val col_to_update new_val =
      .stmt ⟨"UPDATE " ++ table ++ " SET " ++ col_to_update ++ " = ? WHERE " ++ key_col ++ " = ?",
             [new_val, key_val]⟩ ∧
    crud_delete table key_val =
      .stmt ⟨"DELETE FROM " ++ table ++ " WHERE " ++ key_col ++ " = ?", [key_val]⟩ := by
  rw [crud_update, crud_delete, h]
  exact ⟨rfl, rfl⟩

/-- C2 witness: concrete instantiation on the `loans` table. -/
theorem C2_witness :
    crud_update "loans" "L1" "Amount" "9" =
      .stmt ⟨"UPDATE " ++ "loans" ++ " SET " ++ "Amount" ++ " = ? WHERE " ++ "Loan_ID" ++ " = ?",
             ["9", "L1"]⟩ ∧
    crud_delete "loans" "L1" =
      .stmt ⟨"DELETE FROM " ++ "loans" ++ " WHERE " ++ "Loan_ID" ++ " = ?", ["L1"]⟩ :=
  C2_crud_identifier_handling "loans" "L1" "Amount" "9" "Loan_ID" (by decide)

/-- C8 counterexample: when the underlying SQL call raises, `get_table`,
`exec_sql` and the CRUD View branch exit with their freshly opened connection
still open (count 1, not 0) — they have no try/finally around the close; and
when the CRUD Add branch's unguarded `get_table_columns` pragma call raises,
the page's connection leaks the same way. -/
theorem C8_counterexample :
    get_table_conns false 0 = 1 ∧ get_table_conns false 0 ≠ 0 ∧
    exec_sql_conns false 0 = 1 ∧ exec_sql_conns false 0 ≠ 0 ∧
    page_crud_conns .view true false 0 = 1 ∧ page_crud_conns .view true false 0 ≠ 0 ∧
    page_crud_conns .add false true 0 = 1 ∧ page_crud_conns .add false true 0 ≠ 0 := by
  decide

/-- C8 (amended): `run_sql`, `table_has_column`, `get_table_columns`, the
ledger page and the CRUD Update/Delete branches close their connection on
both the success and the error path; the CRUD Add branch closes it on both
paths of its guarded INSERT once the unguarded `get_table_columns` pragma
call has succeeded, but leaks it (count `o + 1`) when that call raises;
`get_table`, `exec_sql` and the CRUD View branch close it only when the SQL
call succeeds, and leak it when the call raises. -/
theorem C8_connection_discipline (ok pragmaOk : Bool) (o : Nat) :
    run_sql_conns ok o = o ∧
    table_has_column_conns ok o = o ∧
    get_table_columns_conns ok o = o ∧
    page_credit_sim_conns ok o = o ∧
    page_crud_conns .add true ok o = o ∧
    page_crud_conns .update pragmaOk ok o = o ∧
    page_crud_conns .delete pragmaOk ok o = o ∧
    get_table_conns true o = o ∧
    exec_sql_conns true o = o ∧
    page_crud_conns .view pragmaOk true o = o ∧
    get_table_conns false o = o + 1 ∧
    exec_sql_conns false o = o + 1 ∧
    page_crud_conns .view pragmaOk false o = o + 1 ∧
    page_crud_conns .add false ok o = o + 1 := by
  cases ok <;> cases pragmaOk <;>
    simp [run_sql_conns, table_has_column_conns, get_table_columns_conns,
      page_credit_sim_conns, page_crud_conns, get_table_conns, exec_sql_conns]

/-- Every account row of the store that matches the customer id carries the new
balance and timestamp after the `UPDATE accounts SET ...` statement. -/
theorem setBalance_mem (s : Store) (cid : String) (nb : ℚ) (now : String) :
    ∀ a ∈ (setBalance s cid nb now).accounts,
      a.customer_id = cid → a.account_balance = some nb ∧ a.last_updated = now := by
  intro a ha hcid
  rw [setBalance] at ha
  simp only [List.mem_map] at ha
  obtain ⟨a0, ha0, rfl⟩ := ha
  by_cases h : a0.customer_id == cid
  · simp [h]
  · rw [if_neg h] at hcid ⊢
    exact absurd hcid (by simpa using h)

/-- Row lookup after the conditional row-update map: the looked-up row comes
back with the new balance and timestamp. -/
theorem find?_map_update (cid : String) (nb : ℚ) (now : String) :
    ∀ l : List Account,
      List.find? (fun a => a.customer_id == cid)
          (l.map (fun a => if a.customer_id == cid
            then { a with account_balance := some nb, last_updated := now }
            else a))
        = (List.find? (fun a => a.customer_id == cid) l).map
            (fun a => { a with account_balance := some nb, last_updated := now })
  | [] => rfl
  | a :: t => by
    by_cases h : a.customer_id = cid
    · simp [List.find?_cons, h]
    · simp [List.find?_cons, h, -List.find?_map]
      simpa using find?_map_update cid nb now t

/-- The balance update commutes with row lookup: after `setBalance`, looking up
the customer returns the looked-up row with the new balance and timestamp. -/
theorem findAccount_setBalance (s : Store) (cid : String) (nb : ℚ) (now : String) :
    findAccount (setBalance s cid nb now) cid =
      (findAccount s cid).map
        (fun a => { a with account_balance := some nb, last_updated := now }) :=
  find?_map_update cid nb now s.accounts

/-- The audit insert touches only `transactions`; lookups in `accounts` are
unaffected. -/
theorem findAccount_appendTxn (s : Store) (tid cid' ty : String) (amt : ℚ)
    (time st cid : String) :
    findAccount (appendTxn s tid cid' ty amt time st) cid = findAccount s cid := rfl

/-- A successful deposit leaves the accounts table as `setBalance` leaves it
(whether or not the audit insert succeeded), and the customer's row reads back
with the incremented balance. -/
theorem deposit_store_shape (now tid : String) (ok : Bool) (cid : String) (A : ℚ)
    (s : Store) (row : Account) (hfind : findAccount s cid = some row) :
    (page_credit_sim now tid ok cid A .deposit s).2.accounts
      = (setBalance s cid (row.account_balance.getD 0 + A) now).accounts ∧
    findAccount (page_credit_sim now tid ok cid A .deposit s).2 cid
      = some { row with account_balance := some (row.account_balance.getD 0 + A),
                        last_updated := now } := by
  rw [page_credit_sim, hfind]
  cases ok <;>
    exact ⟨rfl,
      (findAccount_setBalance s cid (row.account_balance.getD 0 + A) now).trans
        (by rw [hfind]; rfl)⟩

/-- C1: withdrawing an amount strictly greater than the current balance fails
with the insufficient-funds error and returns the store untouched: the balance
keeps its value, and no transaction row is inserted. -/
theorem C1_withdraw_insufficient_funds (now tid : String) (auditOk : Bool) (cid : String)
    (amount B : ℚ) (s : Store) (row : Account)
    (hfind : findAccount s cid = some row)
    (hbal : row.account_balance = some B)
    (hgt : B < amount) :
    page_credit_sim now tid auditOk cid amount .withdraw s = (.insufficientFunds, s) := by
  rw [page_credit_sim, hfind]
  simp [hbal, hgt]

/-- C1 witness: balance 100, withdraw 150 — fails, store unchanged. -/
theorem C1_witness :
    page_credit_sim "t1" "tx1" true "C0001" 150 .withdraw store100
      = (.insufficientFunds, store100) :=
  C1_withdraw_insufficient_funds "t1" "tx1" true "C0001" 150 100 store100
    ⟨"C0001", some 100, "t0"⟩ (by decide) (by decide) (by decide)

/-- C3: when the customer has no account row, every ledger variant (check,
deposit, withdraw) fails with the account-not-found error before any store
write: the store is returned unchanged, so no transaction record appears. -/
theorem C3_missing_account (now tid : String) (auditOk : Bool) (cid : String)
    (amount : ℚ) (action : LedgerAction) (s : Store)
    (hfind : findAccount s cid = none) :
    page_credit_sim now tid auditOk cid amount action s = (.accountNotFound, s) := by
  rw [page_credit_sim, hfind]

/-- C3 witness: an empty store rejects all three variants for `"C9999"`. -/
theorem C3_witness :
    page_credit_sim "t1" "tx1" true "C9999" 5 .check ⟨[], []⟩ = (.accountNotFound, ⟨[], []⟩) ∧
    page_credit_sim "t1" "tx1" true "C9999" 5 .deposit ⟨[], []⟩ = (.accountNotFound, ⟨[], []⟩) ∧
    page_credit_sim "t1" "tx1" true "C9999" 5 .withdraw ⟨[], []⟩ = (.accountNotFound, ⟨[], []⟩) :=
  ⟨C3_missing_account "t1" "tx1" true "C9999" 5 .check ⟨[], []⟩ (by decide),
   C3_missing_account "t1" "tx1" true "C9999" 5 .deposit ⟨[], []⟩ (by decide),
   C3_missing_account "t1" "tx1" true "C9999" 5 .withdraw ⟨[], []⟩ (by decide)⟩

/-- C4: a deposit of `A` on an existing account with balance `B` (with the
audit insert succeeding) reports the new balance `B + A`, rewrites the matching
account rows with balance `B + A` and the fresh timestamp, and appends exactly
one transaction row with type `deposit`, amount `A` and status `success`. -/
theorem C4_deposit_success (now tid cid : String) (A B : ℚ) (s : Store) (row : Account)
    (hfind : findAccount s cid = some row)
    (hbal : row.account_balance = some B) :
    page_credit_sim now tid true cid A .deposit s =
      (.deposited (B + A),
       ⟨(setBalance s cid (B + A) now).accounts,
        s.transactions ++ [⟨tid, cid, "deposit", A, now, "success"⟩]⟩) ∧
    ∀ a ∈ (page_credit_sim now tid true cid A .deposit s).2.accounts,
      a.customer_id = cid → a.account_balance = some (B + A) ∧ a.last_updated = now := by
  constructor
  · rw [page_credit_sim, hfind]
    simp [hbal, appendTxn, setBalance]
  · intro a ha hcid
    rw [page_credit_sim, hfind] at ha
    simp only [hbal, Option.getD_some] at ha
    exact setBalance_mem s cid (B + A) now a (by simpa [appendTxn] using ha) hcid

/-- C4 witness: balance 500, deposit 250.50 — balance 750.50 and one new
`deposit`/`success` transaction row of amount 250.50. -/
theorem C4_witness :
    page_credit_sim "t1" "tx1" true "C0001" (250.5 : ℚ) .deposit store500 =
      (.deposited 750.5,
       ⟨[⟨"C0001", some 750.5, "t1"⟩],
        [⟨"tx1", "C0001", "deposit", 250.5, "t1", "success"⟩]⟩) :=
  ((C4_deposit_success "t1" "tx1" "C0001" 250.5 500 store500
      ⟨"C0001", some 500, "t0"⟩ (by decide) (by decide)).1).trans (by decide)

/-- A withdraw whose amount does not exceed the effective balance reports the
decremented balance and leaves the accounts table as `setBalance` leaves it,
whether or not the audit insert succeeds. -/
theorem withdraw_store_shape (now tid : String) (ok : Bool) (cid : String) (A : ℚ)
    (s : Store) (row : Account) (hfind : findAccount s cid = some row)
    (hok : ¬ (row.account_balance.getD 0 < A)) :
    (page_credit_sim now tid ok cid A .withdraw s).1
      = .withdrawn (row.account_balance.getD 0 - A) ∧
    (page_credit_sim now tid ok cid A .withdraw s).2.accounts
      = (setBalance s cid (row.account_balance.getD 0 - A) now).accounts := by
  rw [page_credit_sim, hfind]
  cases ok <;> simp [hok, appendTxn]

/-- C6 counterexample: a deposit of −5 on balance 100 is not rejected with any
invalid-amount error — it reports success with balance 95, writes the balance,
and records a transaction row, contradicting the claim's required failure with
no store change. -/
theorem C6_counterexample :
    page_credit_sim "t1" "tx1" true "C0001" (-5) .deposit store100 =
      (.deposited 95,
       ⟨[⟨"C0001", some 95, "t1"⟩], [⟨"tx1", "C0001", "deposit", -5, "t1", "success"⟩]⟩) ∧
    (page_credit_sim "t1" "tx1" true "C0001" (-5) .deposit store100).2 ≠ store100 := by
  decide

/-- C6 (amended): negative deposit amounts are excluded at the input boundary —
the amount widget's minimum is 0 — and the ledger itself performs no
invalid-amount check: were a negative amount `A` supplied, the deposit would
proceed, reporting success with balance `B + A` and writing it back. -/
theorem C6_negative_deposit_processed (now tid cid : String) (auditOk : Bool) (A B : ℚ)
    (s : Store) (row : Account)
    (hfind : findAccount s cid = some row)
    (hbal : row.account_balance = some B)
    (hneg : A < 0) :
    amount_input_min = 0 ∧
    (page_credit_sim now tid auditOk cid A .deposit s).1 = .deposited (B + A) ∧
    (page_credit_sim now tid auditOk cid A .deposit s).2.accounts
      = (setBalance s cid (B + A) now).accounts := by
  obtain ⟨hacc, -⟩ := deposit_store_shape now tid auditOk cid A s row hfind
  refine ⟨rfl, ?_, ?_⟩
  · rw [page_credit_sim, hfind]
    cases auditOk <;> simp [hbal]
  · simpa [hbal] using hacc

/-- C6 witness: deposit −5 on balance 100 yields success with balance 95. -/
theorem C6_witness :
    amount_input_min = 0 ∧
    (page_credit_sim "t1" "tx1" true "C0001" (-5) .deposit store100).1 = .deposited 95 ∧
    (page_credit_sim "t1" "tx1" true "C0001" (-5) .deposit store100).2.accounts
      = (setBalance store100 "C0001" 95 "t1").accounts := by
  have h := C6_negative_deposit_processed "t1" "tx1" "C0001" true (-5) 100 store100
    ⟨"C0001", some 100, "t0"⟩ (by decide) (by decide) (by decide)
  exact ⟨h.1, h.2.1.trans (by decide), h.2.2.trans (by decide)⟩

/-- C7: when the audit insert into `transactions` fails, the failure is
swallowed — the deposit still reports success with the new balance, the
committed store carries the balance mutation, and nothing is rolled back (the
transactions table is simply left unchanged); symmetrically for a withdraw
within the balance. -/
theorem C7_audit_failure_swallowed (now tid cid : String) (A B : ℚ) (s : Store) (row : Account)
    (hfind : findAccount s cid = some row)
    (hbal : row.account_balance = some B) :
    page_credit_sim now tid false cid A .deposit s
      = (.deposited (B + A), setBalance s cid (B + A) now) ∧
    (setBalance s cid (B + A) now).transactions = s.transactions ∧
    (A ≤ B → page_credit_sim now tid false cid A .withdraw s
      = (.withdrawn (B - A), setBalance s cid (B - A) now)) := by
  refine ⟨?_, rfl, ?_⟩
  · rw [page_credit_sim, hfind]
    simp [hbal]
  · intro hle
    rw [page_credit_sim, hfind]
    simp [hbal, not_lt.mpr hle]

/-- C7 witness: with the audit insert failing, deposit 30 on balance 100 still
succeeds with balance 130 and an unchanged transactions table; likewise
withdraw 30 succeeds with balance 70. -/
theorem C7_witness :
    page_credit_sim "t1" "tx1" false "C0001" 30 .deposit store100
      = (.deposited 130, ⟨[⟨"C0001", some 130, "t1"⟩], []⟩) ∧
    page_credit_sim "t1" "tx1" false "C0001" 30 .withdraw store100
      = (.withdrawn 70, ⟨[⟨"C0001", some 70, "t1"⟩], []⟩) := by
  have h := C7_audit_failure_swallowed "t1" "tx1" "C0001" 30 100 store100
    ⟨"C0001", some 100, "t0"⟩ (by decide) (by decide)
  exact ⟨h.1.trans (by decide), (h.2.2 (by decide)).trans (by decide)⟩

/-- C9 counterexample: starting balance −10 (as bulk load may produce),
deposit 5 succeeds (balance −5), but the sequential withdraw of 5 fails with
insufficient funds, leaving the balance at −5 ≠ −10 — the round trip does not
return the balance to its starting value. -/
theorem C9_counterexample :
    (page_credit_sim "t1" "tx1" true "C0001" 5 .deposit storeNeg).1 = .deposited (-5) ∧
    (page_credit_sim "t2" "tx2" true "C0001" 5 .withdraw
        (page_credit_sim "t1" "tx1" true "C0001" 5 .deposit storeNeg).2).1
      = .insufficientFunds ∧
    (page_credit_sim "t2" "tx2" true "C0001" 5 .withdraw
        (page_credit_sim "t1" "tx1" true "C0001" 5 .deposit storeNeg).2).2.accounts
      = [⟨"C0001", some (-5), "t1"⟩] ∧
    ((-5 : ℚ) ≠ -10) := by
  decide

/-- C9 (amended): for an account with starting balance `B ≥ 0`, a deposit of
`A` followed sequentially by a withdraw of `A` reports `B` and returns the
account's balance to exactly `B` (amounts are exact rationals, so there is no
rounding drift at all). -/
theorem C9_roundtrip_restores_balance (now1 tid1 now2 tid2 cid : String) (ok1 ok2 : Bool)
    (A B : ℚ) (s : Store) (row : Account)
    (hfind : findAccount s cid = some row)
    (hbal : row.account_balance = some B)
    (hB : 0 ≤ B) :
    (page_credit_sim now2 tid2 ok2 cid A .withdraw
        (page_credit_sim now1 tid1 ok1 cid A .deposit s).2).1 = .withdrawn B ∧
    ∀ a ∈ (page_credit_sim now2 tid2 ok2 cid A .withdraw
        (page_credit_sim now1 tid1 ok1 cid A .deposit s).2).2.accounts,
      a.customer_id = cid → a.account_balance = some B := by
  obtain ⟨-, hfind1⟩ := deposit_store_shape now1 tid1 ok1 cid A s row hfind
  simp only [hbal, Option.getD_some] at hfind1
  have hrow1bal :
      Option.getD (Account.account_balance
        { row with account_balance := some (B + A), last_updated := now1 }) 0 = B + A := rfl
  have hnot :
      ¬ (Option.getD (Account.account_balance
          { row with account_balance := some (B + A), last_updated := now1 }) 0 < A) := by
    rw [hrow1bal]
    intro hc
    linarith
  obtain ⟨hres, hacc2⟩ :=
    withdraw_store_shape now2 tid2 ok2 cid A
      (page_credit_sim now1 tid1 ok1 cid A .deposit s).2 _ hfind1 hnot
  constructor
  · rw [hres, hrow1bal, add_sub_cancel_right]
  · intro a ha hcid
    rw [hacc2, hrow1bal, add_sub_cancel_right] at ha
    exact (setBalance_mem _ cid B now2 a ha hcid).1

/-- C9 witness: balance 100, deposit 30 then withdraw 30 — the withdraw
reports balance 100 and the account row reads 100 again. -/
theorem C9_witness :
    (page_credit_sim "t2" "tx2" true "C0001" 30 .withdraw
        (page_credit_sim "t1" "tx1" true "C0001" 30 .deposit store100).2).1
      = .withdrawn 100 ∧
    ∀ a ∈ (page_credit_sim "t2" "tx2" true "C0001" 30 .withdraw
        (page_credit_sim "t1" "tx1" true "C0001" 30 .deposit store100).2).2.accounts,
      a.customer_id = "C0001" → a.account_balance = some 100 :=
  C9_roundtrip_restores_balance "t1" "tx1" "t2" "tx2" "C0001" true true 30 100 store100
    ⟨"C0001", some 100, "t0"⟩ (by decide) (by decide) (by decide)

/-- C10: when the account row exists but its stored balance is NULL, the
ledger coalesces it to 0: check reports balance 0, a deposit of `A` sets the
balance to `A`, and a withdraw of any amount strictly greater than 0 fails
with insufficient funds, leaving the store untouched. -/
theorem C10_null_balance_treated_as_zero (now tid cid : String) (auditOk : Bool) (A : ℚ)
    (s : Store) (row : Account)
    (hfind : findAccount s cid = some row)
    (hbal : row.account_balance = none) :
    page_credit_sim now tid auditOk cid A .check s = (.balanceShown 0, s) ∧
    (page_credit_sim now tid auditOk cid A .deposit s).1 = .deposited A ∧
    (page_credit_sim now tid auditOk cid A .deposit s).2.accounts
      = (setBalance s cid A now).accounts ∧
    (0 < A → page_credit_sim now tid auditOk cid A .withdraw s = (.insufficientFunds, s)) := by
  obtain ⟨hacc, -⟩ := deposit_store_shape now tid auditOk cid A s row hfind
  refine ⟨?_, ?_, ?_, ?_⟩
  · rw [page_credit_sim, hfind]
    simp [hbal]
  · rw [page_credit_sim, hfind]
    cases auditOk <;> simp [hbal]
  · simpa [hbal, zero_add] using hacc
  · intro hA
    rw [page_credit_sim, hfind]
    simp [hbal, hA]

/-- C10 witness: NULL balance — check shows 0, deposit 7 yields balance 7, and
withdraw 7 fails with insufficient funds leaving the store unchanged. -/
theorem C10_witness :
    page_credit_sim "t1" "tx1" true "C0001" 7 .check storeNull = (.balanceShown 0, storeNull) ∧
    (page_credit_sim "t1" "tx1" true "C0001" 7 .deposit storeNull).1 = .deposited 7 ∧
    (page_credit_sim "t1" "tx1" true "C0001" 7 .deposit storeNull).2.accounts
      = [⟨"C0001", some 7, "t1"⟩] ∧
    page_credit_sim "t1" "tx1" true "C0001" 7 .withdraw storeNull
      = (.insufficientFunds, storeNull) := by
  have h := C10_null_balance_treated_as_zero "t1" "tx1" "C0001" true 7 storeNull
    ⟨"C0001", none, "t0"⟩ (by decide) (by decide)
  exact ⟨h.1, h.2.1, h.2.2.1.trans (by decide), h.2.2.2 (by decide)⟩
